import Mathlib

/-!
Verification of the Nirabhi content-moderation engine
(`backend/models/content_analyzer.py`) against its specification.

The engine's scores are Python floats used only through comparisons,
`min`, `max`, addition and multiplication by decimal constants; we embed
them as rationals (`ℚ`).  Dictionaries of named scores (`toxicity_analysis`)
with `.get(key, 0.0)` defaults are embedded as a structure with one field
per key; a key that is "absent" corresponds to the field holding `0.0`.
-/

/-- `ToxicityCategory` enumeration from `backend/models/schemas.py`. -/
inductive ToxicityCategory where
  | HATE_SPEECH
  | CYBERBULLYING
  | HARASSMENT
  | THREAT
  | SPAM
  | MISINFORMATION
  | INAPPROPRIATE
  | SAFE
deriving DecidableEq, Repr

/-- `SeverityLevel` enumeration from `backend/models/schemas.py`. -/
inductive SeverityLevel where
  | LOW
  | MEDIUM
  | HIGH
  | CRITICAL
deriving DecidableEq, Repr

/-- The five named classifier scores consumed by the engine
(the `toxicity_analysis` dictionary; `.get(k, 0.0)` defaults are the fields). -/
structure RawSignals where
  toxicity : ℚ
  severe_toxicity : ℚ
  obscene : ℚ
  threat : ℚ
  insult : ℚ
deriving DecidableEq, Repr

/-- The boolean flags produced by `_analyze_patterns`. -/
structure PatternFlags where
  has_hate_speech : Bool
  has_threats : Bool
  has_profanity : Bool
  excessive_caps : Bool
  excessive_punctuation : Bool
deriving DecidableEq, Repr

/-- The documented domain of `RawSignals`: every named score lies in `[0,1]`
(spec section 3, data model). -/
def RawSignals.inUnitRange (s : RawSignals) : Prop :=
  0 ≤ s.toxicity ∧ s.toxicity ≤ 1 ∧
  0 ≤ s.severe_toxicity ∧ s.severe_toxicity ≤ 1 ∧
  0 ≤ s.obscene ∧ s.obscene ≤ 1 ∧
  0 ≤ s.threat ∧ s.threat ≤ 1 ∧
  0 ≤ s.insult ∧ s.insult ≤ 1

/-- `ContentAnalyzer._combine_analysis_scores` (content_analyzer.py lines 279-313).
`compound` is `sentiment_analysis.get('compound', 0.0)`.  Each `let` is one
statement of the Python body, in source order. -/
def combine_analysis_scores (tox : RawSignals) (compound : ℚ) (pat : PatternFlags) : ℚ :=
  let base0 := tox.toxicity
  let base1 := if 0.5 < tox.severe_toxicity then max base0 0.8 else base0
  let base2 := if 0.3 < tox.threat then max base1 0.9 else base1
  let base3 := if compound < -0.5 then max base2 (|compound| * 0.6) else base2
  let base4 := if pat.has_threats then max base3 0.85 else base3
  let base5 := if pat.has_hate_speech then max base4 0.75 else base4
  let base6 := if pat.excessive_caps && pat.has_profanity then min (base5 + 0.2) 1 else base5
  min base6 1

/-- Modelled from the spec (section 4.4 SignalFusion): the eight-step
reference computation, written from the spec's words; step 7 is a plain
additive update and step 8 clamps the result to `[0.0, 1.0]`. -/
def combinedScoreSpecReference (tox : RawSignals) (compound : ℚ) (pat : PatternFlags) : ℚ :=
  let base0 := tox.toxicity
  let base1 := if 0.5 < tox.severe_toxicity then max base0 0.8 else base0
  let base2 := if 0.3 < tox.threat then max base1 0.9 else base1
  let base3 := if compound < -0.5 then max base2 (|compound| * 0.6) else base2
  let base4 := if pat.has_threats then max base3 0.85 else base3
  let base5 := if pat.has_hate_speech then max base4 0.75 else base4
  let base6 := if pat.excessive_caps && pat.has_profanity then base5 + 0.2 else base5
  max 0 (min base6 1)

/-- `ContentAnalyzer._determine_category` (content_analyzer.py lines 315-347). -/
def determine_category (tox : RawSignals) (pat : PatternFlags) (combined_score : ℚ) :
    ToxicityCategory :=
  if combined_score < 0.3 then ToxicityCategory.SAFE
  else if pat.has_threats ∨ 0.4 < tox.threat then ToxicityCategory.THREAT
  else if pat.has_hate_speech ∨ 0.7 < combined_score then ToxicityCategory.HATE_SPEECH
  else if 0.5 < tox.insult ∧ 0.6 < combined_score then ToxicityCategory.CYBERBULLYING
  else if 0.5 < combined_score then ToxicityCategory.HARASSMENT
  else ToxicityCategory.INAPPROPRIATE

/-- `ContentAnalyzer._determine_severity` (content_analyzer.py lines 349-367). -/
def determine_severity (combined_score : ℚ) (category : ToxicityCategory) : SeverityLevel :=
  if category = ToxicityCategory.THREAT then SeverityLevel.CRITICAL
  else if 0.8 ≤ combined_score then SeverityLevel.HIGH
  else if 0.6 ≤ combined_score then SeverityLevel.MEDIUM
  else if 0.3 ≤ combined_score then SeverityLevel.LOW
  else SeverityLevel.LOW

/-!
Embedding of the regular-expression rule sets of `content_analyzer.py`.
The source compiles nine fixed patterns built only from word boundaries,
literal words, alternation, character classes (`[i1]`, `[a4]`, `[a-z]`),
`\s+` and `[a-z]*`; `Rx` covers exactly those constructs.  Every compiled
pattern begins and ends with `\b` and its first and last matched character
is always a word character, so the boundary check reduces to: the
preceding character (if any) and the following character (if any) are
non-word characters.
-/
inductive Rx where
  | eps
  | lit (cs : List Char)
  | cls (cs : List Char)
  | clsStar (cs : List Char)
  | seq (a b : Rx)
  | alt (a b : Rx)
deriving Repr

/-- Match a literal character sequence at the head, returning the rest. -/
def litMatch : List Char → List Char → Option (List Char)
  | [], s => some s
  | _ :: _, [] => none
  | c :: cs, d :: s => if d = c then litMatch cs s else none

/-- All remainders after consuming zero or more characters of the class
(the possible continuations of `[...]*`). -/
def starRem (cs : List Char) : List Char → List (List Char)
  | [] => [[]]
  | c :: s => (c :: s) :: (if c ∈ cs then starRem cs s else [])

/-- All remainders of the input after a match of the pattern at its head. -/
def rxMatch : Rx → List Char → List (List Char)
  | .eps, s => [s]
  | .lit cs, s =>
      match litMatch cs s with
      | some r => [r]
      | none => []
  | .cls _, [] => []
  | .cls cs, c :: s => if c ∈ cs then [s] else []
  | .clsStar cs, s => starRem cs s
  | .seq a b, s => (rxMatch a s).flatMap (rxMatch b)
  | .alt a b, s => rxMatch a s ++ rxMatch b s

/-- Python's `\w` over the ASCII texts handled here. -/
def wordChar (c : Char) : Bool := c.isAlpha || c.isDigit || c = '_'

/-- The trailing `\b` of a pattern whose last matched character is a word
character: the remainder is empty or starts with a non-word character. -/
def boundaryAfter : List Char → Bool
  | [] => true
  | c :: _ => !wordChar c

/-- Scan every position of the text; `prevW` records whether the previous
character was a word character (the leading `\b` of the patterns). -/
def rxSearchAux (r : Rx) : Bool → List Char → Bool
  | prevW, [] => !prevW && (rxMatch r []).any boundaryAfter
  | prevW, c :: t =>
      (!prevW && (rxMatch r (c :: t)).any boundaryAfter) || rxSearchAux r (wordChar c) t

/-- `pattern.search(text)` returning whether any match exists. -/
def rxSearch (r : Rx) (s : List Char) : Bool := rxSearchAux r false s

/-- Python's `\s` character class (ASCII part). -/
def wsChars : List Char := [' ', '\t', '\n', '\x0b', '\x0c', '\r']

/-- `\s+`. -/
def wsp : Rx := .seq (.cls wsChars) (.clsStar wsChars)

def litOf (s : String) : Rx := .lit s.toList

/-- `[a-z]`. -/
def lowerChars : List Char := ("abcdefghijklmnopqrstuvwxyz").toList

/-- `ContentAnalyzer._compile_hate_speech_patterns` (lines 487-497):
`\b(hate|despise|loathe)\s+(you|them|those)\b`,
`\b(kill|die|death)\s+(yourself|yourselves)\b`,
`\b(stupid|idiot|moron)\s+(people|person)\b`. -/
def hate_speech_patterns : List Rx :=
  [ .seq (.alt (litOf ("hate")) (.alt (litOf ("despise")) (litOf ("loathe"))))
      (.seq wsp (.alt (litOf ("you")) (.alt (litOf ("them")) (litOf ("those"))))),
    .seq (.alt (litOf ("kill")) (.alt (litOf ("die")) (litOf ("death"))))
      (.seq wsp (.alt (litOf ("yourself")) (litOf ("yourselves")))),
    .seq (.alt (litOf ("stupid")) (.alt (litOf ("idiot")) (litOf ("moron"))))
      (.seq wsp (.alt (litOf ("people")) (litOf ("person")))) ]

/-- `ContentAnalyzer._compile_threat_patterns` (lines 499-508):
`\b(going\s+to|gonna|will)\s+(kill|hurt|harm|beat|destroy)\b`,
`\b(watch\s+out|be\s+careful|you\s+better)\b`,
`\bor\s+else\b`. -/
def threat_patterns : List Rx :=
  [ .seq (.alt (.seq (litOf ("going")) (.seq wsp (litOf ("to"))))
        (.alt (litOf ("gonna")) (litOf ("will"))))
      (.seq wsp
        (.alt (litOf ("kill"))
          (.alt (litOf ("hurt"))
            (.alt (litOf ("harm")) (.alt (litOf ("beat")) (litOf ("destroy"))))))),
    .alt (.seq (litOf ("watch")) (.seq wsp (litOf ("out"))))
      (.alt (.seq (litOf ("be")) (.seq wsp (litOf ("careful"))))
        (.seq (litOf ("you")) (.seq wsp (litOf ("better"))))),
    .seq (litOf ("or")) (.seq wsp (litOf ("else"))) ]

/-- `ContentAnalyzer._compile_profanity_patterns` (lines 510-522):
`\b[a-z]*sh[i1]t[a-z]*\b`, `\b[a-z]*d[a4]mn[a-z]*\b`, `\b[a-z]*cr[a4]p[a-z]*\b`. -/
def profanity_patterns : List Rx :=
  [ .seq (.clsStar lowerChars)
      (.seq (litOf ("sh")) (.seq (.cls ['i', '1']) (.seq (litOf ("t")) (.clsStar lowerChars)))),
    .seq (.clsStar lowerChars)
      (.seq (litOf ("d")) (.seq (.cls ['a', '4']) (.seq (litOf ("mn")) (.clsStar lowerChars)))),
    .seq (.clsStar lowerChars)
      (.seq (litOf ("cr")) (.seq (.cls ['a', '4']) (.seq (litOf ("p")) (.clsStar lowerChars)))) ]

/-- `sum(1 for pattern in patterns if pattern.search(text))`. -/
def countMatching (ps : List Rx) (s : List Char) : Nat :=
  (ps.filter (fun p => rxSearch p s)).length

/-- `str.strip()` (ASCII whitespace). -/
def stripChars (s : List Char) : List Char :=
  ((s.dropWhile (· ∈ wsChars)).reverse.dropWhile (· ∈ wsChars)).reverse

/-- `re.sub(r'\s+', ' ', text)`: collapse every whitespace run to one space. -/
def squeezeWsAux : Bool → List Char → List Char
  | _, [] => []
  | prevWs, c :: s =>
      if c ∈ wsChars then (if prevWs then [] else [' ']) ++ squeezeWsAux true s
      else c :: squeezeWsAux false s

/-- Replacement for one maximal run: runs of length at least 4 become two
copies (`r'\1\1'`), shorter runs are kept as they are. -/
def emitRun (c : Char) (run : Nat) : List Char :=
  if 4 ≤ run then [c, c] else List.replicate run c

def squeezeRptAux : Char → Nat → List Char → List Char
  | c, run, [] => emitRun c run
  | c, run, d :: s =>
      if d = c then squeezeRptAux c (run + 1) s
      else emitRun c run ++ squeezeRptAux d 1 s

/-- `re.sub(r'(.)\1{3,}', r'\1\1', text)`.  (`.` does not match newlines, but
this substitution runs after whitespace collapsing, so no newline remains.) -/
def squeezeRpt : List Char → List Char
  | [] => []
  | c :: s => squeezeRptAux c 1 s

/-- `ContentAnalyzer._preprocess_text` (lines 170-181): strip, collapse
whitespace runs to one space, then collapse runs of 4+ repeated characters. -/
def preprocess_text (text : List Char) : List Char :=
  squeezeRpt (squeezeWsAux false (stripChars text))

/-- `ContentAnalyzer._rule_based_toxicity_analysis` (lines 219-253). -/
def rule_based_toxicity_analysis (text : List Char) : RawSignals :=
  let text_lower := text.map Char.toLower
  let hate_matches := countMatching hate_speech_patterns text_lower
  let threat_matches := countMatching threat_patterns text_lower
  let profanity_matches := countMatching profanity_patterns text_lower
  { toxicity := if 0 < hate_matches then min (0.3 + (hate_matches : ℚ) * 0.2) 1 else 0
    severe_toxicity := if 0 < threat_matches then max 0 0.7 else 0
    obscene := if 0 < profanity_matches then min (0.2 + (profanity_matches : ℚ) * 0.2) 1 else 0
    threat := if 0 < threat_matches then min (0.4 + (threat_matches : ℚ) * 0.3) 1 else 0
    insult := if 0 < profanity_matches then min (0.3 + (profanity_matches : ℚ) * 0.1) 1 else 0 }

/-- Number of maximal runs of at least 4 consecutive uppercase letters
(`len(re.findall(r'[A-Z]{4,}', text))`); `run` is the current run length. -/
def countCapsRunsAux : List Char → Nat → Nat
  | [], run => if 4 ≤ run then 1 else 0
  | c :: s, run =>
      if c.isUpper then countCapsRunsAux s (run + 1)
      else (if 4 ≤ run then 1 else 0) + countCapsRunsAux s 0

/-- Number of maximal runs of at least 3 consecutive `!`/`?` characters
(`len(re.findall(r'[!?]{3,}', text))`). -/
def countPunctRunsAux : List Char → Nat → Nat
  | [], run => if 3 ≤ run then 1 else 0
  | c :: s, run =>
      if c = '!' ∨ c = '?' then countPunctRunsAux s (run + 1)
      else (if 3 ≤ run then 1 else 0) + countPunctRunsAux s 0

/-- `ContentAnalyzer._analyze_patterns` (lines 262-277). -/
def analyze_patterns (text : List Char) : PatternFlags :=
  let text_lower := text.map Char.toLower
  { has_hate_speech := hate_speech_patterns.any fun p => rxSearch p text_lower
    has_threats := threat_patterns.any fun p => rxSearch p text_lower
    has_profanity := profanity_patterns.any fun p => rxSearch p text_lower
    excessive_caps := 2 < countCapsRunsAux text 0
    excessive_punctuation := 0 < countPunctRunsAux text 0 }

/-- `sum(1 for v in pattern_analysis.values() if v)`. -/
def countTrueFlags (pat : PatternFlags) : Nat :=
  (if pat.has_hate_speech then 1 else 0) + (if pat.has_threats then 1 else 0) +
    (if pat.has_profanity then 1 else 0) + (if pat.excessive_caps then 1 else 0) +
    (if pat.excessive_punctuation then 1 else 0)

/-- `ContentAnalyzer._calculate_confidence` (lines 466-485). -/
def calculate_confidence (tox : RawSignals) (pat : PatternFlags) : ℚ :=
  let confidence0 : ℚ := 0.5
  let confidence1 := if 0.1 < tox.toxicity then confidence0 + 0.3 else confidence0
  min (confidence1 + min ((countTrueFlags pat : ℚ) * 0.1) 0.2) 0.95

/-- The fixed SAFE explanation of `_generate_explanation`. -/
def safe_explanation : String :=
  "This content appears to be safe and appropriate for most audiences."

/-- The `explanations` dictionary of `_generate_explanation` with its
`.get(category, default)` fallback. -/
def base_explanation : ToxicityCategory → String
  | ToxicityCategory.HATE_SPEECH =>
      "This content contains language that may be hurtful or discriminatory towards individuals or groups based on their identity."
  | ToxicityCategory.CYBERBULLYING =>
      "This content contains language that could be perceived as bullying, intimidating, or meant to cause emotional harm to someone."
  | ToxicityCategory.HARASSMENT =>
      "This content contains language that may be considered harassing or repeatedly targeting someone in a negative way."
  | ToxicityCategory.THREAT =>
      "This content contains language that could be interpreted as a threat or expression of intent to cause harm."
  | ToxicityCategory.INAPPROPRIATE =>
      "This content contains language that may not be appropriate for all audiences or contexts."
  | _ => "This content has been flagged for potential toxicity."

/-- `ContentAnalyzer._generate_explanation` (lines 369-415); its `text`
parameter is unused by the body and therefore omitted here. -/
def generate_explanation (category : ToxicityCategory) (score : ℚ) : String :=
  if category = ToxicityCategory.SAFE then safe_explanation
  else if score < 0.5 then
    base_explanation category ++ " The content is borderline and context may be important."
  else if score < 0.7 then
    base_explanation category ++ " The content shows moderate signs of toxicity."
  else
    base_explanation category ++ " The content shows strong indicators of toxicity."

/-- The generic closing remark appended by `_generate_suggestions`. -/
def wellness_remark : String := "Remember: kind words can make someone\x27s day better!"

/-- The `base_suggestions` dictionary of `_generate_suggestions` with its
`.get(category, default)` fallback (each entry has exactly 3 items). -/
def base_suggestions : ToxicityCategory → List String
  | ToxicityCategory.HATE_SPEECH =>
      [ "Consider using more inclusive language that doesn\x27t target or demean groups of people",
        "Think about how your words might affect someone from the group you\x27re discussing",
        "Try expressing your viewpoint without using language that could hurt others" ]
  | ToxicityCategory.CYBERBULLYING =>
      [ "Consider how the recipient might feel reading this message",
        "Try expressing disagreement without personal attacks",
        "Think about whether this comment builds up or tears down the conversation" ]
  | ToxicityCategory.HARASSMENT =>
      [ "Consider giving the person space rather than continuing to engage negatively",
        "Try focusing on the topic rather than the person",
        "Ask yourself if this comment is constructive or just venting" ]
  | ToxicityCategory.THREAT =>
      [ "Express disagreement or frustration without mentioning harm",
        "Consider taking a break before responding when you\x27re angry",
        "Remember that threats can have serious legal and personal consequences" ]
  | _ =>
      [ "Consider rephrasing your message in a more positive way",
        "Think about the impact your words might have on others",
        "Try expressing your thoughts with more empathy and understanding" ]

/-- `ContentAnalyzer._generate_suggestions` (lines 417-464); its `text` and
`user_preferences` parameters are unused by the body and therefore omitted.
The body extends with the category suggestions, appends the wellness remark,
and returns `suggestions[:3]`. -/
def generate_suggestions (category : ToxicityCategory) : List String :=
  if category = ToxicityCategory.SAFE then
    ["Great job! This content promotes positive communication."]
  else (base_suggestions category ++ [wellness_remark]).take 3

structure SupportResource where
  name : String
  description : String
  contact : String
  url : String
deriving DecidableEq, Repr

/-- `ContentAnalyzer._load_support_resources` (lines 524-547). -/
def load_support_resources : List SupportResource :=
  [ ⟨"Crisis Text Line", "Free 24/7 support via text message",
      "Text HOME to 741741", "https://www.crisistextline.org/"⟩,
    ⟨"National Suicide Prevention Lifeline", "Free and confidential support 24/7",
      "988", "https://suicidepreventionlifeline.org/"⟩,
    ⟨"StopBullying.gov", "Resources for dealing with cyberbullying",
      "Online resources", "https://www.stopbullying.gov/"⟩ ]

/-- `ContentAnalysisResponse` from `backend/models/schemas.py`, as populated
by `analyze_text`.  `analysis_timestamp` models the `datetime.utcnow()`
reading and `processing_time_ms` the two `time.time()` readings. -/
structure ContentAnalysisResponse where
  text : List Char
  toxicity_score : ℚ
  is_toxic : Bool
  category : ToxicityCategory
  severity : SeverityLevel
  sentiment_score : ℚ
  confidence : ℚ
  explanation : String
  suggestions : List String
  support_resources : Option (List SupportResource)
  analysis_timestamp : ℚ
  processing_time_ms : ℚ

/-- `ContentAnalyzer.analyze_text` (lines 87-168) at the engine boundary of
the spec (section 6): the classifier signals are an optional input (absent
means the rule-based fallback path) and the sentiment compound score is an
input.  The clock readings `start_time` (first `time.time()`), `utcnow`
(`datetime.utcnow()`) and `end_time` (second `time.time()`) are explicit
inputs of the embedding. -/
def analyze_text (text : List Char) (classifier_signals : Option RawSignals)
    (compound : ℚ) (start_time utcnow end_time : ℚ) : ContentAnalysisResponse :=
  let cleaned_text := preprocess_text text
  let toxicity_analysis :=
    match classifier_signals with
    | some s => s
    | none => rule_based_toxicity_analysis cleaned_text
  let pattern_analysis := analyze_patterns cleaned_text
  let combined_score := combine_analysis_scores toxicity_analysis compound pattern_analysis
  let category := determine_category toxicity_analysis pattern_analysis combined_score
  let severity := determine_severity combined_score category
  { text := text
    toxicity_score := combined_score
    is_toxic := decide (0.5 < combined_score)
    category := category
    severity := severity
    sentiment_score := compound
    confidence := calculate_confidence toxicity_analysis pattern_analysis
    explanation := generate_explanation category combined_score
    suggestions := generate_suggestions category
    support_resources :=
      if 0.7 < combined_score ∨ category = ToxicityCategory.THREAT ∨
          category = ToxicityCategory.CYBERBULLYING ∨ category = ToxicityCategory.HATE_SPEECH
      then some load_support_resources else none
    analysis_timestamp := utcnow
    processing_time_ms := (end_time - start_time) * 1000 }

/-- The normalized text of the C8 usage example
(`"I will kill you or else"` after `_preprocess_text`). -/
def c8_cleaned : List Char := preprocess_text (("I will kill you or else").toList)

-- Shared helper lemmas about the fusion steps.

theorem nonneg_condmax {b x : ℚ} {c : Prop} [Decidable c] (hb : 0 ≤ b) :
    0 ≤ if c then max b x else b := by
  split_ifs
  · exact le_trans hb (le_max_left _ _)
  · exact hb

theorem nonneg_addcap {b : ℚ} {c : Prop} [Decidable c] (hb : 0 ≤ b) :
    0 ≤ if c then min (b + 0.2) 1 else b := by
  split_ifs
  · exact le_min (by linarith) (by norm_num)
  · exact hb

theorem le_condmax {a b x : ℚ} {c : Prop} [Decidable c] (h : a ≤ b) :
    a ≤ if c then max b x else b := by
  split_ifs
  · exact le_trans h (le_max_left _ _)
  · exact h

theorem le_addcap {a b : ℚ} {c : Prop} [Decidable c] (ha : a ≤ 1) (h : a ≤ b) :
    a ≤ if c then min (b + 0.2) 1 else b := by
  split_ifs
  · exact le_min (by linarith) ha
  · exact h

theorem boost_mono {b1 b2 s1 s2 t x : ℚ} (hb : b1 ≤ b2) (hs : s1 ≤ s2) :
    (if t < s1 then max b1 x else b1) ≤ (if t < s2 then max b2 x else b2) := by
  split_ifs with h1 h2
  · exact max_le_max hb le_rfl
  · exact absurd (lt_of_lt_of_le h1 hs) h2
  · exact le_trans hb (le_max_left _ _)
  · exact hb

theorem condmax_mono {b1 b2 x : ℚ} {c : Prop} [Decidable c] (hb : b1 ≤ b2) :
    (if c then max b1 x else b1) ≤ (if c then max b2 x else b2) := by
  split_ifs
  · exact max_le_max hb le_rfl
  · exact hb

theorem addcap_mono {b1 b2 : ℚ} {c : Prop} [Decidable c] (hb : b1 ≤ b2) :
    (if c then min (b1 + 0.2) 1 else b1) ≤ (if c then min (b2 + 0.2) 1 else b2) := by
  split_ifs
  · exact min_le_min (by linarith) le_rfl
  · exact hb

theorem fusionTail_eq {b : ℚ} (hb : 0 ≤ b) (c : Prop) [Decidable c] :
    min (if c then min (b + 0.2) 1 else b) 1
      = max 0 (min (if c then b + 0.2 else b) 1) := by
  split_ifs
  · rw [min_eq_left (min_le_right (b + 0.2) 1),
      max_eq_right (le_min (by linarith) (by norm_num))]
  · rw [max_eq_right (le_min hb (by norm_num))]

/-- C1: for every `RawSignals` in its documented `[0,1]` domain, every
sentiment compound value and every flag assignment, the code's
`_combine_analysis_scores` computes exactly the spec's eight-step
reference computation (steps 1-6 max-raising, step 7 additive, step 8
clamp to `[0,1]`). -/
theorem C1_fusion_matches_spec_reference (tox : RawSignals) (compound : ℚ)
    (pat : PatternFlags) (h : tox.inUnitRange) :
    combine_analysis_scores tox compound pat
      = combinedScoreSpecReference tox compound pat := by
  obtain ⟨h0, -⟩ := h
  simp only [combine_analysis_scores, combinedScoreSpecReference]
  exact fusionTail_eq
    (nonneg_condmax (nonneg_condmax (nonneg_condmax (nonneg_condmax (nonneg_condmax h0))))) _

/-- Witness for C1 at a concrete input. -/
theorem C1_witness :
    combine_analysis_scores ⟨0.4, 0.6, 0, 0, 0⟩ 0
        ⟨false, false, false, false, false⟩
      = combinedScoreSpecReference ⟨0.4, 0.6, 0, 0, 0⟩ 0
        ⟨false, false, false, false, false⟩ :=
  C1_fusion_matches_spec_reference ⟨0.4, 0.6, 0, 0, 0⟩ 0
    ⟨false, false, false, false, false⟩ (by norm_num [RawSignals.inUnitRange])

/-- C2 (counterexample): a classifier mapping with `toxicity = -0.5` and all
other signals neutral is not clamped: the combined score is `-0.5`, which is
negative, so the returned `CombinedScore` is not always in `[0,1]`. -/
theorem C2_counterexample :
    combine_analysis_scores ⟨-0.5, 0, 0, 0, 0⟩ 0 ⟨false, false, false, false, false⟩
        = -0.5 ∧
    combine_analysis_scores ⟨-0.5, 0, 0, 0, 0⟩ 0 ⟨false, false, false, false, false⟩
        < 0 := by
  norm_num [combine_analysis_scores, min_def, max_def]

/-- C2 (amended): the engine never clamps its inputs.  The combined score is
always at most `1`; whenever the supplied `toxicity` signal is nonnegative
(in particular whenever it is in its documented `[0,1]` domain) the combined
score lies in `[0,1]`, but a negative `toxicity` signal propagates unclamped. -/
theorem C2_amended_bounds (tox : RawSignals) (compound : ℚ) (pat : PatternFlags) :
    combine_analysis_scores tox compound pat ≤ 1 ∧
    (0 ≤ tox.toxicity → 0 ≤ combine_analysis_scores tox compound pat) := by
  constructor
  · simp only [combine_analysis_scores]
    exact min_le_right _ _
  · intro h0
    simp only [combine_analysis_scores]
    exact le_min
      (nonneg_addcap
        (nonneg_condmax (nonneg_condmax (nonneg_condmax (nonneg_condmax (nonneg_condmax h0))))))
      (by norm_num)

/-- Witness for C2 (amended) at a concrete input. -/
theorem C2_witness :
    combine_analysis_scores ⟨0.4, 0, 0, 0, 0⟩ 0 ⟨false, false, false, false, false⟩ ≤ 1 ∧
    0 ≤ combine_analysis_scores ⟨0.4, 0, 0, 0, 0⟩ 0 ⟨false, false, false, false, false⟩ :=
  ⟨(C2_amended_bounds ⟨0.4, 0, 0, 0, 0⟩ 0 ⟨false, false, false, false, false⟩).1,
   (C2_amended_bounds ⟨0.4, 0, 0, 0, 0⟩ 0 ⟨false, false, false, false, false⟩).2 (by norm_num)⟩

/-- C3: category classification is first-match-wins: when the score is at
least `0.3` and both the THREAT condition and the HATE_SPEECH condition hold,
the category is THREAT, not HATE_SPEECH. -/
theorem C3_threat_priority (tox : RawSignals) (pat : PatternFlags) (score : ℚ)
    (h1 : 0.3 ≤ score)
    (h2 : pat.has_threats = true ∨ 0.4 < tox.threat)
    (_h3 : pat.has_hate_speech = true ∨ 0.7 < score) :
    determine_category tox pat score = ToxicityCategory.THREAT := by
  unfold determine_category
  rw [if_neg (not_lt.mpr h1), if_pos h2]

/-- Witness for C3 at a concrete input. -/
theorem C3_witness :
    determine_category ⟨0, 0, 0, 0.5, 0⟩ ⟨false, false, false, false, false⟩ 0.8
      = ToxicityCategory.THREAT :=
  C3_threat_priority ⟨0, 0, 0, 0.5, 0⟩ ⟨false, false, false, false, false⟩ 0.8
    (by norm_num) (Or.inr (by norm_num)) (Or.inr (by norm_num))

/-- C4: severity is CRITICAL exactly for the THREAT category regardless of
the score; every non-THREAT category gets HIGH for `score ≥ 0.8`, MEDIUM for
`0.6 ≤ score < 0.8` and LOW otherwise. -/
theorem C4_severity_table (score : ℚ) (cat : ToxicityCategory) :
    determine_severity score cat
      = (if cat = ToxicityCategory.THREAT then SeverityLevel.CRITICAL
         else if 0.8 ≤ score then SeverityLevel.HIGH
         else if 0.6 ≤ score then SeverityLevel.MEDIUM
         else SeverityLevel.LOW)
    ∧ (determine_severity score cat = SeverityLevel.CRITICAL
        ↔ cat = ToxicityCategory.THREAT) := by
  unfold determine_severity
  constructor
  · split_ifs <;> rfl
  · split_ifs <;> simp_all

-- Pointwise monotonicity of fusion in the three raw signals it reads
-- (shared helper for C5; `obscene` and `insult` are not read by fusion).
theorem combine_mono_pointwise (s1 s2 : RawSignals) (compound : ℚ) (pat : PatternFlags)
    (h1 : s1.toxicity ≤ s2.toxicity)
    (h2 : s1.severe_toxicity ≤ s2.severe_toxicity)
    (h4 : s1.threat ≤ s2.threat) :
    combine_analysis_scores s1 compound pat ≤ combine_analysis_scores s2 compound pat := by
  simp only [combine_analysis_scores]
  exact min_le_min
    (addcap_mono (condmax_mono (condmax_mono (condmax_mono (boost_mono (boost_mono h1 h2) h4)))))
    le_rfl

/-- C5: fusion is monotone in each raw signal: if two signal mappings agree
on all fields except one, and that one field is larger in the second, the
combined score from the second is at least the combined score from the
first (for any fixed compound and flags). -/
theorem C5_fusion_monotone (s1 s2 : RawSignals) (compound : ℚ) (pat : PatternFlags)
    (h : (s1.toxicity < s2.toxicity ∧ s1.severe_toxicity = s2.severe_toxicity ∧
            s1.obscene = s2.obscene ∧ s1.threat = s2.threat ∧ s1.insult = s2.insult)
       ∨ (s1.toxicity = s2.toxicity ∧ s1.severe_toxicity < s2.severe_toxicity ∧
            s1.obscene = s2.obscene ∧ s1.threat = s2.threat ∧ s1.insult = s2.insult)
       ∨ (s1.toxicity = s2.toxicity ∧ s1.severe_toxicity = s2.severe_toxicity ∧
            s1.obscene < s2.obscene ∧ s1.threat = s2.threat ∧ s1.insult = s2.insult)
       ∨ (s1.toxicity = s2.toxicity ∧ s1.severe_toxicity = s2.severe_toxicity ∧
            s1.obscene = s2.obscene ∧ s1.threat < s2.threat ∧ s1.insult = s2.insult)
       ∨ (s1.toxicity = s2.toxicity ∧ s1.severe_toxicity = s2.severe_toxicity ∧
            s1.obscene = s2.obscene ∧ s1.threat = s2.threat ∧ s1.insult < s2.insult)) :
    combine_analysis_scores s1 compound pat ≤ combine_analysis_scores s2 compound pat := by
  rcases h with h | h | h | h | h <;> obtain ⟨a, b, -, d, -⟩ := h <;>
    exact combine_mono_pointwise s1 s2 compound pat
      (by first | exact le_of_lt a | exact le_of_eq a)
      (by first | exact le_of_lt b | exact le_of_eq b)
      (by first | exact le_of_lt d | exact le_of_eq d)

/-- Witness for C5 at a concrete input. -/
theorem C5_witness :
    combine_analysis_scores ⟨0, 0, 0, 0, 0⟩ 0 ⟨false, false, false, false, false⟩
      ≤ combine_analysis_scores ⟨1, 0, 0, 0, 0⟩ 0 ⟨false, false, false, false, false⟩ :=
  C5_fusion_monotone ⟨0, 0, 0, 0, 0⟩ ⟨1, 0, 0, 0, 0⟩ 0 ⟨false, false, false, false, false⟩
    (Or.inl (by norm_num))

/-- C6: the category is SAFE if and only if the combined score is strictly
below `0.3`, for every signal mapping and flag assignment. -/
theorem C6_safe_iff_low_score (tox : RawSignals) (pat : PatternFlags) (score : ℚ) :
    determine_category tox pat score = ToxicityCategory.SAFE ↔ score < 0.3 := by
  unfold determine_category
  split_ifs <;> simp_all

-- Helper: a triggered flag step pushes the base up to at least the flag's floor.
theorem le_iftrue_max {a b x : ℚ} {c : Prop} [Decidable c] (hc : c) (h : a ≤ x) :
    a ≤ if c then max b x else b := by
  rw [if_pos hc]
  exact le_trans h (le_max_right _ _)

/-- C10: whenever `has_threats` is set (raw signals in `[0,1]`), the combined
score is at least `0.85`, the category computed from that score is THREAT
(so SAFE is unreachable), and the severity is CRITICAL. -/
theorem C10_threat_flag_invariant (tox : RawSignals) (compound : ℚ) (pat : PatternFlags)
    (_hrange : tox.inUnitRange) (hth : pat.has_threats = true) :
    0.85 ≤ combine_analysis_scores tox compound pat ∧
    determine_category tox pat (combine_analysis_scores tox compound pat)
      = ToxicityCategory.THREAT ∧
    determine_severity (combine_analysis_scores tox compound pat)
        (determine_category tox pat (combine_analysis_scores tox compound pat))
      = SeverityLevel.CRITICAL := by
  have hscore : (0.85 : ℚ) ≤ combine_analysis_scores tox compound pat := by
    simp only [combine_analysis_scores]
    exact le_min (le_addcap (by norm_num) (le_condmax (le_iftrue_max hth le_rfl))) (by norm_num)
  have hcat : determine_category tox pat (combine_analysis_scores tox compound pat)
      = ToxicityCategory.THREAT := by
    unfold determine_category
    rw [if_neg (not_lt.mpr (by linarith :
          (0.3 : ℚ) ≤ combine_analysis_scores tox compound pat)),
      if_pos (Or.inl hth)]
  refine ⟨hscore, hcat, ?_⟩
  rw [hcat]
  unfold determine_severity
  rw [if_pos rfl]

/-- Witness for C10 at a concrete input. -/
theorem C10_witness :
    0.85 ≤ combine_analysis_scores ⟨0, 0, 0, 0, 0⟩ 0 ⟨false, true, false, false, false⟩ ∧
    determine_category ⟨0, 0, 0, 0, 0⟩ ⟨false, true, false, false, false⟩
        (combine_analysis_scores ⟨0, 0, 0, 0, 0⟩ 0 ⟨false, true, false, false, false⟩)
      = ToxicityCategory.THREAT ∧
    determine_severity
        (combine_analysis_scores ⟨0, 0, 0, 0, 0⟩ 0 ⟨false, true, false, false, false⟩)
        (determine_category ⟨0, 0, 0, 0, 0⟩ ⟨false, true, false, false, false⟩
          (combine_analysis_scores ⟨0, 0, 0, 0, 0⟩ 0 ⟨false, true, false, false, false⟩))
      = SeverityLevel.CRITICAL :=
  C10_threat_flag_invariant ⟨0, 0, 0, 0, 0⟩ 0 ⟨false, true, false, false, false⟩
    (by norm_num [RawSignals.inUnitRange]) rfl

/-- C7 (counterexample): for the non-SAFE category HATE_SPEECH the generated
suggestion list does not include the generic closing remark: the three
category-specific templates already fill the list and the final `[:3]`
truncation drops the appended remark. -/
theorem C7_counterexample :
    wellness_remark ∉ generate_suggestions ToxicityCategory.HATE_SPEECH := by
  decide

/-- C7 (amended): for every non-SAFE category the suggestions list has
exactly 3 items (hence at most 3), namely the first three category-specific
templates; the generic closing remark is appended before truncation but is
always cut off, so it never appears in the returned list. -/
theorem C7_suggestions_amended (cat : ToxicityCategory)
    (h : cat ≠ ToxicityCategory.SAFE) :
    (generate_suggestions cat).length = 3 ∧ wellness_remark ∉ generate_suggestions cat := by
  cases cat <;> first | exact absurd rfl h | decide

/-- Witness for C7 (amended) at a concrete category. -/
theorem C7_witness :
    (generate_suggestions ToxicityCategory.THREAT).length = 3 ∧
    wellness_remark ∉ generate_suggestions ToxicityCategory.THREAT :=
  C7_suggestions_amended ToxicityCategory.THREAT (by decide)

/-- C8 (counterexample): on the fallback path the text
`"I will kill you or else"` matches two threat patterns (`will kill` and
`or else`), so the fallback threat signal is `min(0.4 + 2*0.3, 1) = 1`,
which is not the claimed value of about `0.7`. -/
theorem C8_counterexample :
    (rule_based_toxicity_analysis c8_cleaned).threat = 1 ∧ (1 : ℚ) ≠ 0.7 := by
  have ht : countMatching threat_patterns (c8_cleaned.map Char.toLower) = 2 := by decide
  constructor
  · simp only [rule_based_toxicity_analysis, ht]
    norm_num [min_def]
  · norm_num

/-- C8 (amended): for `"I will kill you or else"` on the fallback path with
sentiment compound not below `-0.5`: the pattern matcher sets
`has_threats = true`, the fallback scorer yields `threat = 1.0` (two threat
patterns match) and `severe_toxicity = 0.7`, and fusion yields a combined
score of `0.9`, with category THREAT and severity CRITICAL. -/
theorem C8_threat_text_amended (compound : ℚ) (h : -0.5 ≤ compound) :
    (analyze_patterns c8_cleaned).has_threats = true ∧
    (rule_based_toxicity_analysis c8_cleaned).threat = 1 ∧
    (rule_based_toxicity_analysis c8_cleaned).severe_toxicity = 0.7 ∧
    combine_analysis_scores (rule_based_toxicity_analysis c8_cleaned) compound
        (analyze_patterns c8_cleaned) = 0.9 ∧
    determine_category (rule_based_toxicity_analysis c8_cleaned) (analyze_patterns c8_cleaned)
        (combine_analysis_scores (rule_based_toxicity_analysis c8_cleaned) compound
          (analyze_patterns c8_cleaned)) = ToxicityCategory.THREAT ∧
    determine_severity
        (combine_analysis_scores (rule_based_toxicity_analysis c8_cleaned) compound
          (analyze_patterns c8_cleaned))
        (determine_category (rule_based_toxicity_analysis c8_cleaned) (analyze_patterns c8_cleaned)
          (combine_analysis_scores (rule_based_toxicity_analysis c8_cleaned) compound
            (analyze_patterns c8_cleaned))) = SeverityLevel.CRITICAL := by
  have ht : countMatching threat_patterns (c8_cleaned.map Char.toLower) = 2 := by decide
  have hh : countMatching hate_speech_patterns (c8_cleaned.map Char.toLower) = 0 := by decide
  have hpat : analyze_patterns c8_cleaned = ⟨false, true, false, false, false⟩ := by decide
  have htox : (rule_based_toxicity_analysis c8_cleaned).toxicity = 0 := by
    simp only [rule_based_toxicity_analysis, hh]
    norm_num
  have hsev : (rule_based_toxicity_analysis c8_cleaned).severe_toxicity = 0.7 := by
    simp only [rule_based_toxicity_analysis, ht]
    norm_num [max_def]
  have hthr : (rule_based_toxicity_analysis c8_cleaned).threat = 1 := by
    simp only [rule_based_toxicity_analysis, ht]
    norm_num [min_def]
  have hcomb : combine_analysis_scores (rule_based_toxicity_analysis c8_cleaned) compound
      (analyze_patterns c8_cleaned) = 0.9 := by
    rw [hpat]
    simp only [combine_analysis_scores, htox, hsev, hthr]
    rw [if_neg (not_lt.mpr h)]
    norm_num [min_def, max_def]
  have hcat : determine_category (rule_based_toxicity_analysis c8_cleaned)
      (analyze_patterns c8_cleaned)
      (combine_analysis_scores (rule_based_toxicity_analysis c8_cleaned) compound
        (analyze_patterns c8_cleaned)) = ToxicityCategory.THREAT := by
    rw [hcomb, hpat]
    norm_num [determine_category]
  have hsevr : determine_severity
      (combine_analysis_scores (rule_based_toxicity_analysis c8_cleaned) compound
        (analyze_patterns c8_cleaned))
      (determine_category (rule_based_toxicity_analysis c8_cleaned) (analyze_patterns c8_cleaned)
        (combine_analysis_scores (rule_based_toxicity_analysis c8_cleaned) compound
          (analyze_patterns c8_cleaned))) = SeverityLevel.CRITICAL := by
    rw [hcat]
    norm_num [determine_severity]
  exact ⟨by decide, hthr, hsev, hcomb, hcat, hsevr⟩

/-- Witness for C8 (amended) at a concrete compound value. -/
theorem C8_witness :
    (analyze_patterns c8_cleaned).has_threats = true ∧
    (rule_based_toxicity_analysis c8_cleaned).threat = 1 ∧
    (rule_based_toxicity_analysis c8_cleaned).severe_toxicity = 0.7 ∧
    combine_analysis_scores (rule_based_toxicity_analysis c8_cleaned) 0
        (analyze_patterns c8_cleaned) = 0.9 ∧
    determine_category (rule_based_toxicity_analysis c8_cleaned) (analyze_patterns c8_cleaned)
        (combine_analysis_scores (rule_based_toxicity_analysis c8_cleaned) 0
          (analyze_patterns c8_cleaned)) = ToxicityCategory.THREAT ∧
    determine_severity
        (combine_analysis_scores (rule_based_toxicity_analysis c8_cleaned) 0
          (analyze_patterns c8_cleaned))
        (determine_category (rule_based_toxicity_analysis c8_cleaned) (analyze_patterns c8_cleaned)
          (combine_analysis_scores (rule_based_toxicity_analysis c8_cleaned) 0
            (analyze_patterns c8_cleaned))) = SeverityLevel.CRITICAL :=
  C8_threat_text_amended 0 (by norm_num)

/-- C9 (counterexample): two runs of the engine on identical
`(text, classifier_signals, sentiment)` inputs but at different clock
readings produce different `AnalysisResult` values — the
`analysis_timestamp` fields differ — so not every field of the two results
is equal. -/
theorem C9_counterexample :
    analyze_text (("hi").toList) none 0 0 0 1 ≠ analyze_text (("hi").toList) none 0 0 1 2 := by
  intro hEq
  have hts := congrArg ContentAnalysisResponse.analysis_timestamp hEq
  simp only [analyze_text] at hts
  exact absurd hts (by norm_num)

/-- C9 (amended): the analysis is deterministic in the engine inputs: two
runs on identical `(text, classifier_signals, sentiment)` agree on every
field of the result except the clock-derived metadata fields
`analysis_timestamp` and `processing_time_ms`. -/
theorem C9_determinism_amended (text : List Char) (cs : Option RawSignals) (compound : ℚ)
    (s1 n1 e1 s2 n2 e2 : ℚ) :
    (analyze_text text cs compound s1 n1 e1).text
        = (analyze_text text cs compound s2 n2 e2).text ∧
    (analyze_text text cs compound s1 n1 e1).toxicity_score
        = (analyze_text text cs compound s2 n2 e2).toxicity_score ∧
    (analyze_text text cs compound s1 n1 e1).is_toxic
        = (analyze_text text cs compound s2 n2 e2).is_toxic ∧
    (analyze_text text cs compound s1 n1 e1).category
        = (analyze_text text cs compound s2 n2 e2).category ∧
    (analyze_text text cs compound s1 n1 e1).severity
        = (analyze_text text cs compound s2 n2 e2).severity ∧
    (analyze_text text cs compound s1 n1 e1).sentiment_score
        = (analyze_text text cs compound s2 n2 e2).sentiment_score ∧
    (analyze_text text cs compound s1 n1 e1).confidence
        = (analyze_text text cs compound s2 n2 e2).confidence ∧
    (analyze_text text cs compound s1 n1 e1).explanation
        = (analyze_text text cs compound s2 n2 e2).explanation ∧
    (analyze_text text cs compound s1 n1 e1).suggestions
        = (analyze_text text cs compound s2 n2 e2).suggestions ∧
    (analyze_text text cs compound s1 n1 e1).support_resources
        = (analyze_text text cs compound s2 n2 e2).support_resources :=
  ⟨rfl, rfl, rfl, rfl, rfl, rfl, rfl, rfl, rfl, rfl⟩
